import Mathlib

/-!
Verification development for `textract_cdk_stack_samples/open_search_workflow.py`.

The Python file builds a CDK stack: an S3 bucket, a Step Functions state
machine chained from pre-built IDP constructs, a throttle front end, an
OpenSearch cluster, and six CloudFormation outputs.  The definitions below
are a shallow embedding of that construction: each definition mirrors one
declaration or call of the Python file, with deploy-time tokens (bucket
name, region, account, ARNs, ...) abstracted into an `Env` record.
-/

/-- Deploy-time values that CDK resolves only at deployment (tokens such as
the generated bucket name, the region, the account id, the state machine
ARN, the SQS queue URL exposed by the throttle construct, and the
OpenSearch domain attributes). -/
structure Env where
  bucketName : String
  region : String
  account : String
  stackName : String
  stateMachineArn : String
  documentQueueUrl : Option String
  openSearchDomainEndpoint : String
  openSearchDomainName : String
  userPoolId : String

/-- `s3_upload_prefix = "uploads"` (line 26). -/
def s3_upload_prefix : String := "uploads"

/-- `s3_output_prefix = "textract-output"` (line 27). -/
def s3_output_prefix : String := "textract-output"

/-- `s3_opensearch_output_prefix = "textract-opensearch-output"` (line 28). -/
def s3_opensearch_output_prefix : String := "textract-opensearch-output"

/-- `s3_temp_output_prefix = "textract-temp"` (line 29). -/
def s3_temp_output_prefix : String := "textract-temp"

/-- The named workflow states the stack file creates (lines 59-233): the two
pre-built construct steps, the Map state, and the steps placed inside the
Map iterator. -/
inductive StateName where
  | deciderTask
  | documentSplitterTask
  | mapState
  | textractAsyncTask
  | textractAsyncToJSON
  | setMetaDataTask
  | generateOpenSearchBatch
  | openSearchPushInvoke
  | taskOpenSearchMapping
  deriving DecidableEq, Fintype

/-- One `.next` call on a chain or state: record that state `a` transitions
to state `b`, leaving every other successor untouched. -/
def setNext (f : StateName → Option StateName) (a b : StateName) :
    StateName → Option StateName :=
  fun s => if s = a then some b else f s

/-- Before any chaining, no state has a successor. -/
def noTransitions : StateName → Option StateName := fun _ => none

/-- `async_chain = sfn.Chain.start(textract_async_task).next(textract_async_to_json)`
(line 236). -/
def transitionsAfterLine236 : StateName → Option StateName :=
  setNext noTransitions StateName.textractAsyncTask StateName.textractAsyncToJSON

/-- `textract_async_to_json.next(set_meta_data_task).next(generate_open_search_batch)`
(line 238). -/
def transitionsAfterLine238 : StateName → Option StateName :=
  setNext (setNext transitionsAfterLine236
      StateName.textractAsyncToJSON StateName.setMetaDataTask)
    StateName.setMetaDataTask StateName.generateOpenSearchBatch

/-- `generate_open_search_batch.next(task_lambda_opensearch_push).next(task_opensearch_mapping)`
(lines 240-242). -/
def transitionsAfterLine240 : StateName → Option StateName :=
  setNext (setNext transitionsAfterLine238
      StateName.generateOpenSearchBatch StateName.openSearchPushInvoke)
    StateName.openSearchPushInvoke StateName.taskOpenSearchMapping

/-- `workflow_chain = sfn.Chain.start(decider_task).next(document_splitter_task).next(map)`
(lines 264-266): the final successor map of every state in the file. -/
def transitions : StateName → Option StateName :=
  setNext (setNext transitionsAfterLine240
      StateName.deciderTask StateName.documentSplitterTask)
    StateName.documentSplitterTask StateName.mapState

/-- The start state of `async_chain` (line 236) is the Textract async task. -/
def asyncChainStart : StateName := StateName.textractAsyncTask

/-- `map.iterator(async_chain)` (line 262): the Map state iterates the chain
that starts at `asyncChainStart`. -/
def mapIteratorStart : StateName := asyncChainStart

/-- `workflow_chain` starts at the decider (line 265). -/
def workflowChainStart : StateName := StateName.deciderTask

/-- `state_machine = sfn.StateMachine(self, workflow_name, definition=workflow_chain)`
(line 269): the state machine definition is the workflow chain, and its ARN
is a deploy-time token. -/
structure StateMachineDef where
  definitionStart : StateName
  definitionTransitions : StateName → Option StateName

/-- The single state machine built in the file (line 269). -/
def state_machine : StateMachineDef :=
  { definitionStart := workflowChainStart
    definitionTransitions := transitions }

/-- The ARN of the state machine of line 269, a deploy-time token. -/
def state_machine_arn (env : Env) : String := env.stateMachineArn

/-- The AWS Step Functions intrinsic `States.Format` on a character list:
each occurrence of the two-character placeholder is replaced by the next
argument in order. -/
def formatChars : List Char → List (List Char) → List Char
  | '{' :: '}' :: rest, a :: args => a ++ formatChars rest args
  | '{' :: '}' :: rest, [] => formatChars rest []
  | c :: rest, args => c :: formatChars rest args
  | [], _ => []

/-- The AWS Step Functions intrinsic `States.Format` on strings. -/
def statesFormat (fmt : String) (args : List String) : String :=
  String.mk (formatChars fmt.data (args.map String.data))

/-- The JSON fields of the Map state input that the `parameters` block of
lines 248-259 reads: the page array at `$.pages`, the splitter output
bucket and path, and the `mime` and `originFileURI` fields. -/
structure MapStateInput where
  pages : List String
  documentSplitterS3OutputBucket : String
  documentSplitterS3OutputPath : String
  mime : String
  originFileURI : String

/-- The JSON object each Map iteration receives, as shaped by the
`parameters` block (lines 248-259). -/
structure MapIterationInput where
  manifestS3Path : String
  mime : String
  originFileURI : String
  deriving DecidableEq

/-- `items_path=sfn.JsonPath.string_at("$.pages")` (line 247). -/
def mapItemsPath : String := "$.pages"

/-- The `parameters` block of the Map state (lines 248-259) applied to one
item value: `manifest.s3Path` is `States.Format` of the template over the
splitter output bucket, the splitter output path and the item value, and
`mime` and `originFileURI` are copied from the Map state input. -/
def mapItemInput (input : MapStateInput) (itemValue : String) : MapIterationInput :=
  { manifestS3Path := statesFormat "s3://{}/{}/{}"
      [input.documentSplitterS3OutputBucket,
       input.documentSplitterS3OutputPath,
       itemValue]
    mime := input.mime
    originFileURI := input.originFileURI }

/-- The Map state iterates over the array selected by `items_path`, i.e.
`$.pages`, applying the `parameters` block to each item (lines 244-260). -/
def mapIterationInputs (input : MapStateInput) : List MapIterationInput :=
  input.pages.map (mapItemInput input)

/-- One retry policy attached by an `add_retry` call: the retry ceiling and
the list of retryable error names. -/
structure RetryProps where
  maxAttempts : Nat
  errors : List String
  deriving DecidableEq

/-- One `add_retry` call on a workflow step: append the retry policy to the
step's retry list, leaving every other step untouched. -/
def addRetry (f : StateName → List RetryProps) (s : StateName) (r : RetryProps) :
    StateName → List RetryProps :=
  fun t => if t = s then f t ++ [r] else f t

/-- Before any `add_retry` call, no step of the file has a retry policy. -/
def noRetries : StateName → List RetryProps := fun _ => []

/-- `task_lambda_opensearch_push.add_retry(max_attempts=100000, errors=[...])`
(lines 161-164). -/
def retriesAfterLine161 : StateName → List RetryProps :=
  addRetry noRetries StateName.openSearchPushInvoke
    { maxAttempts := 100000
      errors := ["Lambda.TooManyRequestsException", "OpenSearchConnectionTimeout"] }

/-- `task_opensearch_mapping.add_retry(max_attempts=100000, errors=[...])`
(lines 204-207). -/
def retriesAfterLine204 : StateName → List RetryProps :=
  addRetry retriesAfterLine161 StateName.taskOpenSearchMapping
    { maxAttempts := 100000
      errors := ["Lambda.TooManyRequestsException"] }

/-- `set_meta_data_task.add_retry(max_attempts=10000, errors=[...])`
(lines 230-233): the final retry configuration of every step in the file. -/
def retries : StateName → List RetryProps :=
  addRetry retriesAfterLine204 StateName.setMetaDataTask
    { maxAttempts := 10000
      errors := ["Lambda.TooManyRequestsException"] }

/-- The file calls `add_catch` on no step, so every step's catcher list is
empty. -/
def catchers : StateName → List (List String) := fun _ => []

/-- The steps of the file instantiated as `tasks.LambdaInvoke`:
`OpenSearchPushInvoke` (line 152), `TaskOpenSearchMapping` (line 197) and
`SetMetaData` (line 223). -/
def isLambdaInvoke : StateName → Bool
  | StateName.openSearchPushInvoke => true
  | StateName.taskOpenSearchMapping => true
  | StateName.setMetaDataTask => true
  | _ => false

/-- Which event sources exist in the file: the single
`eventsources.S3EventSource` of lines 46-50. -/
inductive EventSourceId where
  | s3EventSource
  deriving DecidableEq

/-- The S3 event types CDK can subscribe to (only `OBJECT_CREATED` is used
in the file, line 48). -/
inductive S3EventType where
  | objectCreated
  deriving DecidableEq

/-- The configuration of `s3_event_source` (lines 46-50): it watches the
document bucket, fires on `OBJECT_CREATED`, and filters on the key prefix
`s3_upload_prefix`. -/
structure S3EventSourceProps where
  bucketId : String
  events : List S3EventType
  filterPrefixes : List String
  deriving DecidableEq

/-- `s3_event_source = eventsources.S3EventSource(document_bucket,
events=[s3.EventType.OBJECT_CREATED],
filters=[s3.NotificationKeyFilter(prefix=s3_upload_prefix)])` (lines 46-50). -/
def s3_event_source : S3EventSourceProps :=
  { bucketId := "OpenSearchWorkflowBucket"
    events := [S3EventType.objectCreated]
    filterPrefixes := [ s3_upload_prefix] }

/-- The configuration passed to `tcdk.SFExecutionsStartThrottle`
(lines 273-281). -/
structure SFExecutionsStartThrottleProps where
  stateMachineArn : String
  executionsConcurrencyThreshold : Nat
  sqsBatch : Nat
  lambdaLogLevel : String
  eventSource : List EventSourceId

/-- `sf_executions_start_throttle = tcdk.SFExecutionsStartThrottle(self,
"ExecutionThrottle", state_machine_arn=state_machine.state_machine_arn,
executions_concurrency_threshold=550, sqs_batch=10,
lambda_log_level="ERROR", event_source=[s3_event_source])`
(lines 273-281). -/
def sf_executions_start_throttle (env : Env) : SFExecutionsStartThrottleProps :=
  { stateMachineArn := state_machine_arn env
    executionsConcurrencyThreshold := 550
    sqsBatch := 10
    lambdaLogLevel := "ERROR"
    eventSource := [EventSourceId.s3EventSource] }

/-- The removal policies used by the file (line 42). -/
inductive RemovalPolicyKind where
  | destroy
  | retain
  deriving DecidableEq

/-- The document bucket configuration (lines 38-43). -/
structure BucketProps where
  constructId : String
  auto_delete_objects : Bool
  removal_policy : RemovalPolicyKind

/-- `document_bucket = s3.Bucket(self, "OpenSearchWorkflowBucket",
auto_delete_objects=True, removal_policy=RemovalPolicy.DESTROY)`
(lines 38-43). -/
def document_bucket : BucketProps :=
  { constructId := "OpenSearchWorkflowBucket"
    auto_delete_objects := true
    removal_policy := RemovalPolicyKind.destroy }

/-- `s3_output_bucket = document_bucket.bucket_name` (line 44): the bucket
name token of the document bucket. -/
def s3_output_bucket (env : Env) : String := env.bucketName

/-- The configuration passed to `tcdk.DocumentSplitter` (lines 68-76). -/
structure DocumentSplitterProps where
  s3_output_bucket : String
  s3_output_prefix : String
  max_number_of_pages_per_doc : Nat
  lambda_log_level : String
  textract_document_splitter_max_retries : Nat

/-- `document_splitter_task = tcdk.DocumentSplitter(...)` (lines 68-76). -/
def document_splitter_task (env : Env) : DocumentSplitterProps :=
  { s3_output_bucket := s3_output_bucket env
    s3_output_prefix := s3_output_prefix
    max_number_of_pages_per_doc := 2500
    lambda_log_level := "INFO"
    textract_document_splitter_max_retries := 10000 }

/-- The configuration passed to `tcdk.TextractGenericAsyncSfnTask`
(lines 79-96), scalar fields only. -/
structure TextractGenericAsyncProps where
  s3_output_bucket : String
  s3_temp_output_prefix : String
  textract_async_call_max_retries : Nat
  lambda_log_level : String

/-- `textract_async_task = tcdk.TextractGenericAsyncSfnTask(...)`
(lines 79-96). -/
def textract_async_task (env : Env) : TextractGenericAsyncProps :=
  { s3_output_bucket := s3_output_bucket env
    s3_temp_output_prefix := s3_temp_output_prefix
    textract_async_call_max_retries := 50000
    lambda_log_level := "INFO" }

/-- The configuration passed to `tcdk.TextractAsyncToJSON` (lines 99-105). -/
structure TextractAsyncToJSONProps where
  s3_output_bucket : String
  s3_output_prefix : String
  lambda_log_level : String

/-- `textract_async_to_json = tcdk.TextractAsyncToJSON(...)` (lines 99-105). -/
def textract_async_to_json (env : Env) : TextractAsyncToJSONProps :=
  { s3_output_bucket := s3_output_bucket env
    s3_output_prefix := s3_output_prefix
    lambda_log_level := "INFO" }

/-- The configuration passed to `tcdk.TextractGenerateCSV` (lines 109-127),
scalar fields only. -/
structure TextractGenerateCSVProps where
  csv_s3_output_bucket : String
  csv_s3_output_prefix : String
  lambda_log_level : String
  lambda_memory_mb : Nat
  output_type : String
  opensearch_index_name : String

/-- `generate_open_search_batch = tcdk.TextractGenerateCSV(...)`
(lines 109-127). -/
def generate_open_search_batch (env : Env) : TextractGenerateCSVProps :=
  { csv_s3_output_bucket := env.bucketName
    csv_s3_output_prefix := s3_opensearch_output_prefix
    lambda_log_level := "INFO"
    lambda_memory_mb := 10240
    output_type := "OPENSEARCH_BATCH"
    opensearch_index_name := "papers-index" }

/-- The character kind kept by `re.sub("[^a-zA-Z0-9-]", "", ...)`
(line 167): ASCII letters, digits and the dash, by code point. -/
def keepChar (c : Char) : Bool :=
  (97 ≤ c.toNat && c.toNat ≤ 122) || (65 ≤ c.toNat && c.toNat ≤ 90)
    || (48 ≤ c.toNat && c.toNat ≤ 57) || c.toNat == 45

/-- Python `str.lower` on one character of the post-filter alphabet: ASCII
uppercase letters map to their lowercase counterpart 32 code points up,
every other kept character is unchanged. -/
def pyLowerChar (c : Char) : Char :=
  if 65 ≤ c.toNat ∧ c.toNat ≤ 90 then Char.ofNat (c.toNat + 32) else c

/-- `cognito_stack_name = re.sub("[^a-zA-Z0-9-]", "", f"{stack_name}").lower()[:30]`
(line 167). -/
def cognito_stack_name (s : String) : String :=
  String.mk (((s.data.filter keepChar).map pyLowerChar).take 30)

/-- The configuration passed to `LambdaToOpenSearch` (lines 168-183),
scalar fields only. -/
structure LambdaToOpenSearchProps where
  open_search_domain_name : String
  cognito_domain_name : String
  ebs_volume_size : Nat
  ebs_volume_type : String
  instance_type : String
  engine_version : String

/-- `lambda_to_opensearch = LambdaToOpenSearch(self, "OpenSearchResources",
..., cognito_domain_name=f"{cognito_stack_name}-{account_id}-{current_region}", ...)`
(lines 168-183). -/
def lambda_to_opensearch (env : Env) : LambdaToOpenSearchProps :=
  { open_search_domain_name := "idp-cdk-opensearch"
    cognito_domain_name :=
      cognito_stack_name env.stackName ++ "-" ++ env.account ++ "-" ++ env.region
    ebs_volume_size := 200
    ebs_volume_type := "gp2"
    instance_type := "m6g.large.search"
    engine_version := "OpenSearch_2.7" }

/-- CloudFormation `Fn::Split` on a character list: split at every
occurrence of the delimiter, keeping empty pieces. -/
def splitChars (delim : Char) : List Char → List (List Char)
  | [] => [[]]
  | c :: rest =>
    match splitChars delim rest with
    | [] => [[]]
    | p :: ps => if c = delim then [] :: p :: ps else (c :: p) :: ps

/-- CloudFormation `Fn::Join` on character lists: interleave the delimiter
between the pieces. -/
def joinChars (delim : List Char) : List (List Char) → List Char
  | [] => []
  | [p] => p
  | p :: ps => p ++ delim ++ joinChars delim ps

/-- CloudFormation `Fn.split` with a one-character delimiter, on strings. -/
def fnSplit (delim : Char) (s : String) : List String :=
  (splitChars delim s.data).map String.mk

/-- CloudFormation `Fn.join`, on strings. -/
def fnJoin (delim : String) (parts : List String) : String :=
  String.mk (joinChars delim.data (parts.map String.data))

/-- Lines 283-297: `queue_url_urlencoded` is `""` when the throttle
construct exposes no document queue; otherwise it is
`Fn.join("%2F", Fn.split("/", Fn.join("%3A", Fn.split(":", queue_url))))`. -/
def queue_url_urlencoded (documentQueueUrl : Option String) : String :=
  match documentQueueUrl with
  | none => ""
  | some url => fnJoin "%2F" (fnSplit '/' (fnJoin "%3A" (fnSplit ':' url)))

/-- Spec-side definition for C9: one character of the claimed encoding,
sending the colon to its three-character percent escape, the slash to its
three-character percent escape, and any other character to itself. -/
def encodeColonSlashChar (c : Char) : List Char :=
  if c = ':' then ['%', '3', 'A'] else if c = '/' then ['%', '2', 'F'] else [c]

/-- Spec-side definition for C9: the claimed encoding, replacing every
colon and every slash of the string by its percent escape. -/
def percentEncodeColonSlash (s : String) : String :=
  String.mk (s.data.flatMap encodeColonSlashChar)

/-- Spec-side definition for C9: decode the two percent escapes back to the
colon and the slash, leaving every other character alone. -/
def percentDecodeColonSlashChars : List Char → List Char
  | '%' :: '3' :: 'A' :: rest => ':' :: percentDecodeColonSlashChars rest
  | '%' :: '2' :: 'F' :: rest => '/' :: percentDecodeColonSlashChars rest
  | c :: rest => c :: percentDecodeColonSlashChars rest
  | [] => []

/-- Spec-side definition for C9: the decoder on strings. -/
def percentDecodeColonSlash (s : String) : String :=
  String.mk (percentDecodeColonSlashChars s.data)

/-- One CloudFormation output of the stack: logical id, value, and the
optional export name. -/
structure OutputDef where
  logicalId : String
  value : String
  export_name : Option String

/-- The value of the `DocumentUploadLocation` output (line 302):
`f"s3://{document_bucket.bucket_name}/{s3_upload_prefix}/"`. -/
def documentUploadLocation (env : Env) : String :=
  "s3://" ++ env.bucketName ++ "/" ++ s3_upload_prefix ++ "/"

/-- The value of the `StepFunctionFlowLink` output (line 308). -/
def stepFunctionFlowLink (env : Env) : String :=
  "https://" ++ env.region ++ ".console.aws.amazon.com/states/home?region="
    ++ env.region ++ "#/statemachines/view/" ++ state_machine_arn env

/-- The value of the `DocumentQueueLink` output (line 313). -/
def document_queue_link (env : Env) : String :=
  "https://" ++ env.region ++ ".console.aws.amazon.com/sqs/v2/home?region="
    ++ env.region ++ "#/queues/" ++ queue_url_urlencoded env.documentQueueUrl

/-- The value of the `OpenSearchDashboard` output (line 318). -/
def openSearchDashboard (env : Env) : String :=
  "https://" ++ env.openSearchDomainEndpoint ++ "/_dashboards"

/-- The value of the `OpenSearchLink` output (line 323). -/
def openSearchLink (env : Env) : String :=
  "https://" ++ env.region ++ ".console.aws.amazon.com/aos/home?region="
    ++ env.region ++ "#/opensearch/domains/" ++ env.openSearchDomainName

/-- The value of the `CognitoUserPoolLink` output (line 329). -/
def cognitoUserPoolLink (env : Env) : String :=
  "https://" ++ env.region ++ ".console.aws.amazon.com/cognito/v2/idp/user-pools/"
    ++ env.userPoolId ++ "/users?region=" ++ env.region

/-- The six `CfnOutput` declarations of the file, in source order
(lines 299-330); only the first carries an `export_name`. -/
def stackOutputs (env : Env) : List OutputDef :=
  [ { logicalId := "DocumentUploadLocation"
      value := documentUploadLocation env
      export_name := some (env.stackName ++ "-DocumentUploadLocation") },
    { logicalId := "StepFunctionFlowLink"
      value := stepFunctionFlowLink env
      export_name := none },
    { logicalId := "DocumentQueueLink"
      value := document_queue_link env
      export_name := none },
    { logicalId := "OpenSearchDashboard"
      value := openSearchDashboard env
      export_name := none },
    { logicalId := "OpenSearchLink"
      value := openSearchLink env
      export_name := none },
    { logicalId := "CognitoUserPoolLink"
      value := cognitoUserPoolLink env
      export_name := none } ]

/-! ### Theorems -/

/-- C1: the workflow chain runs decider, then splitter, then the Map state,
and the Map state's iterator is the chain Textract async call, JSON merge,
metadata tagging, OpenSearch batch generation, OpenSearch push, mapping
step; no state has any other successor. -/
theorem workflow_chain_order :
    transitions StateName.deciderTask = some StateName.documentSplitterTask ∧
    transitions StateName.documentSplitterTask = some StateName.mapState ∧
    transitions StateName.mapState = none ∧
    mapIteratorStart = StateName.textractAsyncTask ∧
    transitions StateName.textractAsyncTask = some StateName.textractAsyncToJSON ∧
    transitions StateName.textractAsyncToJSON = some StateName.setMetaDataTask ∧
    transitions StateName.setMetaDataTask = some StateName.generateOpenSearchBatch ∧
    transitions StateName.generateOpenSearchBatch = some StateName.openSearchPushInvoke ∧
    transitions StateName.openSearchPushInvoke = some StateName.taskOpenSearchMapping ∧
    transitions StateName.taskOpenSearchMapping = none := by
  decide

theorem formatChars_s3Template (b p v : List Char) :
    formatChars ("s3://{}/{}/{}".data) [b, p, v]
      = 's' :: '3' :: ':' :: '/' :: '/' :: (b ++ '/' :: (p ++ '/' :: (v ++ []))) := rfl

/-- C2: the Map state iterates exactly over `$.pages`, and every item `v`
yields an iteration input whose `manifest.s3Path` is
`s3://<splitter bucket>/<splitter path>/<v>` and whose `mime` and
`originFileURI` fields are copied unchanged from the Map state input. -/
theorem map_state_payload_contract :
    mapItemsPath = "$.pages" ∧
    ∀ (input : MapStateInput),
      mapIterationInputs input = input.pages.map (mapItemInput input) ∧
      ∀ v ∈ input.pages,
        (mapItemInput input v).manifestS3Path
            = "s3://" ++ input.documentSplitterS3OutputBucket ++ "/"
              ++ input.documentSplitterS3OutputPath ++ "/" ++ v ∧
        (mapItemInput input v).mime = input.mime ∧
        (mapItemInput input v).originFileURI = input.originFileURI := by
  refine ⟨rfl, fun input => ⟨rfl, fun v _ => ⟨?_, rfl, rfl⟩⟩⟩
  show statesFormat "s3://{}/{}/{}"
      [input.documentSplitterS3OutputBucket, input.documentSplitterS3OutputPath, v]
    = "s3://" ++ input.documentSplitterS3OutputBucket ++ "/"
      ++ input.documentSplitterS3OutputPath ++ "/" ++ v
  apply String.ext
  show formatChars ("s3://{}/{}/{}".data)
      [input.documentSplitterS3OutputBucket.data,
       input.documentSplitterS3OutputPath.data, v.data] = _
  rw [formatChars_s3Template]
  simp [String.data_append]

/-- Witness for `map_state_payload_contract` at a concrete input. -/
theorem map_state_payload_contract_witness :
    (mapItemInput
        { pages := ["p1.pdf"], documentSplitterS3OutputBucket := "bkt",
          documentSplitterS3OutputPath := "out", mime := "application/pdf",
          originFileURI := "s3://bkt/uploads/doc.pdf" } "p1.pdf").manifestS3Path
      = "s3://bkt/out/p1.pdf" :=
  ((map_state_payload_contract.2
      { pages := ["p1.pdf"], documentSplitterS3OutputBucket := "bkt",
        documentSplitterS3OutputPath := "out", mime := "application/pdf",
        originFileURI := "s3://bkt/uploads/doc.pdf" }).2
    "p1.pdf" (by decide)).1

/-- C3: every `tasks.LambdaInvoke` step carries a retry policy retrying
`Lambda.TooManyRequestsException` at least 10000 times; the push step has
ceiling 100000 and additionally retries `OpenSearchConnectionTimeout`; the
mapping step has ceiling 100000; the metadata step has ceiling 10000; no
step of the file has any other retry policy or any catcher. -/
theorem lambda_invoke_retry_policies :
    (∀ s : StateName, isLambdaInvoke s = true →
      ∃ r ∈ retries s, "Lambda.TooManyRequestsException" ∈ r.errors ∧
        10000 ≤ r.maxAttempts) ∧
    retries StateName.openSearchPushInvoke =
      [{ maxAttempts := 100000
         errors := ["Lambda.TooManyRequestsException", "OpenSearchConnectionTimeout"] }] ∧
    retries StateName.taskOpenSearchMapping =
      [{ maxAttempts := 100000, errors := ["Lambda.TooManyRequestsException"] }] ∧
    retries StateName.setMetaDataTask =
      [{ maxAttempts := 10000, errors := ["Lambda.TooManyRequestsException"] }] ∧
    (∀ s : StateName, isLambdaInvoke s = false → retries s = []) ∧
    (∀ s : StateName, catchers s = []) := by
  decide

/-- Witness for `lambda_invoke_retry_policies` at the metadata step. -/
theorem lambda_invoke_retry_policies_witness :
    ∃ r ∈ retries StateName.setMetaDataTask,
      "Lambda.TooManyRequestsException" ∈ r.errors ∧ 10000 ≤ r.maxAttempts :=
  lambda_invoke_retry_policies.1 StateName.setMetaDataTask (by decide)

/-- C4: the throttle construct receives concurrency threshold 550, SQS
batch size 10, and the ARN of exactly the state machine whose definition is
the workflow chain of line 269; these values and the retry ceilings are the
only concurrency-related parameters the file sets. -/
theorem throttle_configuration (env : Env) :
    (sf_executions_start_throttle env).executionsConcurrencyThreshold = 550 ∧
    (sf_executions_start_throttle env).sqsBatch = 10 ∧
    (sf_executions_start_throttle env).stateMachineArn = state_machine_arn env ∧
    state_machine.definitionStart = workflowChainStart ∧
    state_machine.definitionTransitions = transitions :=
  ⟨rfl, rfl, rfl, rfl, rfl⟩

theorem splitChars_ne_nil (delim : Char) (l : List Char) : splitChars delim l ≠ [] := by
  cases l with
  | nil => simp [splitChars]
  | cons c rest =>
    cases h : splitChars delim rest with
    | nil => simp [splitChars, h]
    | cons p ps =>
      simp only [splitChars, h]
      split <;> simp

theorem joinChars_cons_head (rep : List Char) (c : Char) (p : List Char) :
    ∀ ps, joinChars rep ((c :: p) :: ps) = c :: joinChars rep (p :: ps)
  | [] => rfl
  | q :: qs => by
    show ((c :: p) ++ rep) ++ joinChars rep (q :: qs)
        = c :: ((p ++ rep) ++ joinChars rep (q :: qs))
    simp

theorem joinChars_splitChars (delim : Char) (rep : List Char) (l : List Char) :
    joinChars rep (splitChars delim l)
      = l.flatMap (fun c => if c = delim then rep else [c]) := by
  induction l with
  | nil => rfl
  | cons c rest ih =>
    cases h : splitChars delim rest with
    | nil => exact absurd h (splitChars_ne_nil delim rest)
    | cons p ps =>
      by_cases hc : c = delim
      · have hs : splitChars delim (c :: rest) = [] :: p :: ps := by
          simp [splitChars, h, hc]
        rw [hs]
        have hj : joinChars rep ([] :: p :: ps) = rep ++ joinChars rep (p :: ps) := rfl
        rw [hj, ← h, ih]
        simp [hc]
      · have hs : splitChars delim (c :: rest) = (c :: p) :: ps := by
          simp [splitChars, h, hc]
        rw [hs, joinChars_cons_head, ← h, ih]
        simp [hc]

theorem fnJoin_fnSplit (delim : Char) (rep : String) (s : String) :
    fnJoin rep (fnSplit delim s)
      = String.mk (s.data.flatMap fun c => if c = delim then rep.data else [c]) := by
  unfold fnJoin fnSplit
  rw [List.map_map]
  have h : (splitChars delim s.data).map (String.data ∘ String.mk)
      = splitChars delim s.data := List.map_id' _
  rw [h, joinChars_splitChars]

theorem encode_two_pass (l : List Char) :
    ((l.flatMap fun c => if c = ':' then "%3A".data else [c]).flatMap
        fun c => if c = '/' then "%2F".data else [c])
      = l.flatMap encodeColonSlashChar := by
  induction l with
  | nil => rfl
  | cons c rest ih =>
    simp only [List.flatMap_cons, List.flatMap_append, ih]
    congr 1
    by_cases h1 : c = ':'
    · subst h1; decide
    · by_cases h2 : c = '/'
      · subst h2; decide
      · simp [h1, h2, encodeColonSlashChar]

theorem decode_cons_ne (c : Char) (t : List Char) (h : ¬ c = '%') :
    percentDecodeColonSlashChars (c :: t) = c :: percentDecodeColonSlashChars t := by
  rw [percentDecodeColonSlashChars.eq_def]
  split <;> simp_all

theorem decode_encode_chars (l : List Char) (h : '%' ∉ l) :
    percentDecodeColonSlashChars (l.flatMap encodeColonSlashChar) = l := by
  induction l with
  | nil => rfl
  | cons c rest ih =>
    have hc : ¬ c = '%' := fun e => h (e ▸ List.mem_cons_self c rest)
    have hr : '%' ∉ rest := fun m => h (List.mem_cons_of_mem _ m)
    rw [List.flatMap_cons]
    by_cases h1 : c = ':'
    · subst h1
      show percentDecodeColonSlashChars
          ('%' :: '3' :: 'A' :: rest.flatMap encodeColonSlashChar) = ':' :: rest
      have e : ∀ t, percentDecodeColonSlashChars ('%' :: '3' :: 'A' :: t)
          = ':' :: percentDecodeColonSlashChars t := fun t => rfl
      rw [e, ih hr]
    · by_cases h2 : c = '/'
      · subst h2
        show percentDecodeColonSlashChars
            ('%' :: '2' :: 'F' :: rest.flatMap encodeColonSlashChar) = '/' :: rest
        have e : ∀ t, percentDecodeColonSlashChars ('%' :: '2' :: 'F' :: t)
            = '/' :: percentDecodeColonSlashChars t := fun t => rfl
        rw [e, ih hr]
      · have e : encodeColonSlashChar c = [c] := by simp [encodeColonSlashChar, h1, h2]
        rw [e]
        show percentDecodeColonSlashChars (c :: rest.flatMap encodeColonSlashChar) = c :: rest
        rw [decode_cons_ne c _ hc, ih hr]

theorem ofNat_lower_bounds (n : Nat) (h1 : 65 ≤ n) (h2 : n ≤ 90) :
    97 ≤ (Char.ofNat (n + 32)).toNat ∧ (Char.ofNat (n + 32)).toNat ≤ 122 := by
  interval_cases n <;> decide

theorem keep_lower_in_kind (c : Char) (h : keepChar c = true) :
    (97 ≤ (pyLowerChar c).toNat ∧ (pyLowerChar c).toNat ≤ 122)
      ∨ (48 ≤ (pyLowerChar c).toNat ∧ (pyLowerChar c).toNat ≤ 57)
      ∨ (pyLowerChar c).toNat = 45 := by
  simp only [keepChar, Bool.or_eq_true, Bool.and_eq_true, decide_eq_true_eq,
    beq_iff_eq] at h
  unfold pyLowerChar
  by_cases hu : 65 ≤ c.toNat ∧ c.toNat ≤ 90
  · rw [if_pos hu]
    exact Or.inl (ofNat_lower_bounds c.toNat hu.1 hu.2)
  · rw [if_neg hu]
    omega

/-- C5: the stack exports exactly six outputs, in order the upload location,
the workflow console link, the queue console link, the search dashboard URL,
the search console link, and the user-pool console link. -/
theorem stack_outputs_exactly_six (env : Env) :
    (stackOutputs env).map OutputDef.logicalId
      = ["DocumentUploadLocation", "StepFunctionFlowLink", "DocumentQueueLink",
         "OpenSearchDashboard", "OpenSearchLink", "CognitoUserPoolLink"] ∧
    (stackOutputs env).map OutputDef.value
      = [documentUploadLocation env, stepFunctionFlowLink env, document_queue_link env,
         openSearchDashboard env, openSearchLink env, cognitoUserPoolLink env] ∧
    (stackOutputs env).length = 6 :=
  ⟨rfl, rfl, rfl⟩

/-- C6: for every bucket name, the exported `DocumentUploadLocation` value
is the bucket URL under the fixed `uploads` key prefix. -/
theorem document_upload_location_value (env : Env) :
    (stackOutputs env).head? = some
      { logicalId := "DocumentUploadLocation"
        value := documentUploadLocation env
        export_name := some (env.stackName ++ "-DocumentUploadLocation") } ∧
    documentUploadLocation env = "s3://" ++ env.bucketName ++ "/uploads/" := by
  refine ⟨rfl, ?_⟩
  show "s3://" ++ env.bucketName ++ "/" ++ s3_upload_prefix ++ "/" = _
  apply String.ext
  simp [String.data_append, s3_upload_prefix]

/-- C7: the throttle construct's sole event source is the S3 event source,
which fires on object-created events under the key prefix `uploads` of the
document bucket, the same prefix the upload-location output publishes. -/
theorem upload_trigger_configuration (env : Env) :
    (sf_executions_start_throttle env).eventSource = [EventSourceId.s3EventSource] ∧
    s3_event_source.events = [S3EventType.objectCreated] ∧
    s3_event_source.filterPrefixes = ["uploads"] ∧
    s3_event_source.filterPrefixes = [ s3_upload_prefix] ∧
    s3_event_source.bucketId = document_bucket.constructId ∧
    documentUploadLocation env
      = "s3://" ++ env.bucketName ++ "/" ++ s3_upload_prefix ++ "/" :=
  ⟨rfl, rfl, rfl, rfl, rfl, rfl⟩

/-- C8: the computed Cognito stack name holds only lowercase ASCII letters,
digits and dashes, is at most 30 characters long, and the Cognito domain
name handed to `LambdaToOpenSearch` is that name followed by the dash,
the account id, the dash, and the region. -/
theorem cognito_domain_prefix_wellformed (env : Env) :
    (∀ c ∈ (cognito_stack_name env.stackName).data,
      (97 ≤ c.toNat ∧ c.toNat ≤ 122) ∨ (48 ≤ c.toNat ∧ c.toNat ≤ 57)
        ∨ c.toNat = 45) ∧
    (cognito_stack_name env.stackName).length ≤ 30 ∧
    (lambda_to_opensearch env).cognito_domain_name
      = cognito_stack_name env.stackName ++ "-" ++ env.account ++ "-" ++ env.region := by
  refine ⟨?_, ?_, rfl⟩
  · intro c hc
    have hc2 : c ∈ (env.stackName.data.filter keepChar).map pyLowerChar :=
      List.take_subset 30 _ hc
    obtain ⟨d, hd, rfl⟩ := List.mem_map.mp hc2
    exact keep_lower_in_kind d (List.of_mem_filter hd)
  · show (((env.stackName.data.filter keepChar).map pyLowerChar).take 30).length ≤ 30
    rw [List.length_take]
    omega

/-- Witness for `cognito_domain_prefix_wellformed`: the letter of the
computed name for a concrete stack name is in the allowed ranges. -/
theorem cognito_domain_prefix_wellformed_witness :
    (97 ≤ 'a'.toNat ∧ 'a'.toNat ≤ 122) ∨ (48 ≤ 'a'.toNat ∧ 'a'.toNat ≤ 57)
      ∨ 'a'.toNat = 45 :=
  (cognito_domain_prefix_wellformed
      { bucketName := "b", region := "us-east-1", account := "123456789012",
        stackName := "OpenSearch Workflow_Stack!", stateMachineArn := "arn",
        documentQueueUrl := none, openSearchDomainEndpoint := "e",
        openSearchDomainName := "d", userPoolId := "u" }).1 'a' (by decide)

/-- C9: the encoded queue URL replaces every colon by its percent escape and
every slash by its percent escape, decoding those two escapes recovers any
percent-free queue URL, and when no document queue exists the encoded value
is empty, so the queue console link ends right after its queues fragment. -/
theorem queue_url_encoding :
    (∀ url : String,
      queue_url_urlencoded (some url) = percentEncodeColonSlash url) ∧
    (∀ url : String, '%' ∉ url.data →
      percentDecodeColonSlash (queue_url_urlencoded (some url)) = url) ∧
    queue_url_urlencoded none = "" ∧
    (∀ env : Env, env.documentQueueUrl = none →
      document_queue_link env
        = "https://" ++ env.region ++ ".console.aws.amazon.com/sqs/v2/home?region="
          ++ env.region ++ "#/queues/") := by
  have henc : ∀ url : String,
      queue_url_urlencoded (some url) = percentEncodeColonSlash url := by
    intro url
    show fnJoin "%2F" (fnSplit '/' (fnJoin "%3A" (fnSplit ':' url))) = _
    rw [fnJoin_fnSplit, fnJoin_fnSplit]
    show String.mk ((url.data.flatMap fun c => if c = ':' then "%3A".data else [c]).flatMap
        fun c => if c = '/' then "%2F".data else [c]) = _
    rw [encode_two_pass]
    rfl
  refine ⟨henc, ?_, rfl, ?_⟩
  · intro url h
    rw [henc url]
    apply String.ext
    show percentDecodeColonSlashChars (url.data.flatMap encodeColonSlashChar) = url.data
    exact decode_encode_chars url.data h
  · intro env h
    unfold document_queue_link
    rw [h]
    exact String.append_empty _

/-- Witness for `queue_url_encoding`: round trip on a concrete queue URL,
and the queue console link for a concrete queue-less deployment. -/
theorem queue_url_encoding_witness :
    percentDecodeColonSlash
        (queue_url_urlencoded (some "https://sqs.us-east-1.amazonaws.com/1234/doc-queue"))
      = "https://sqs.us-east-1.amazonaws.com/1234/doc-queue" ∧
    document_queue_link
        { bucketName := "b", region := "us-east-1", account := "1", stackName := "s",
          stateMachineArn := "arn", documentQueueUrl := none,
          openSearchDomainEndpoint := "e", openSearchDomainName := "d",
          userPoolId := "u" }
      = "https://us-east-1.console.aws.amazon.com/sqs/v2/home?region=us-east-1#/queues/" :=
  ⟨queue_url_encoding.2.1 _ (by decide), queue_url_encoding.2.2.2 _ rfl⟩

/-- C10: the document bucket is created with automatic object deletion and
the destroy removal policy, and it is the same bucket that receives the
uploads and holds the splitter, Textract, temp and OpenSearch-batch
outputs. -/
theorem document_bucket_lifecycle (env : Env) :
    document_bucket.auto_delete_objects = true ∧
    document_bucket.removal_policy = RemovalPolicyKind.destroy ∧
    s3_output_bucket env = env.bucketName ∧
    (document_splitter_task env).s3_output_bucket = env.bucketName ∧
    (textract_async_task env).s3_output_bucket = env.bucketName ∧
    (textract_async_to_json env).s3_output_bucket = env.bucketName ∧
    (generate_open_search_batch env).csv_s3_output_bucket = env.bucketName ∧
    DocumentSplitterProps.s3_output_prefix (document_splitter_task env)
      = s3_output_prefix ∧
    TextractGenericAsyncProps.s3_temp_output_prefix (textract_async_task env)
      = s3_temp_output_prefix ∧
    TextractGenerateCSVProps.csv_s3_output_prefix (generate_open_search_batch env)
      = s3_opensearch_output_prefix ∧
    s3_event_source.bucketId = document_bucket.constructId :=
  ⟨rfl, rfl, rfl, rfl, rfl, rfl, rfl, rfl, rfl, rfl, rfl⟩
